import Mathlib

/-!
# Verification of the animal-registry / library-catalog demo

Shallow embedding of `src/main.cpp`: the `Animal` variant hierarchy
(`Dog`, `Cat`), the factories (`AnimalFactory`, `DogFactory`, `CatFactory`),
the owning collection `AnimalContainer` (add / remove-by-type / sort /
instance counter), and the `AnimalNotifier` / observer pair.  The library
catalog half described by the specification is absent from `src/`, so its
item factory is modelled from the specification text.

Containers (`std::vector`, `std::list`) are embedded as Lean lists holding
the stored values in order.  `std::ranges::sort` gives no stability
guarantee, so `sortAnimals` is embedded relationally: any output permitted
by the C++ standard's postcondition for `sort` (a permutation of the input
that is sorted with respect to the comparator).
-/

/-- The `Animal` hierarchy of `src/main.cpp`: variants `Dog{name}` and
`Cat{name}`. -/
inductive Animal : Type where
  | dog (name : String)
  | cat (name : String)
deriving DecidableEq, Repr

namespace Animal

/-- `Dog::getType` returns `"Dog"`; `Cat::getType` returns `"Cat"`
(src/main.cpp lines 42-44 and 69-71). -/
def getType : Animal → String
  | .dog _ => "Dog"
  | .cat _ => "Cat"

/-- `clone` produces an independent copy with the same variant and name
(src/main.cpp lines 38-40 and 65-67). -/
def clone : Animal → Animal
  | .dog n => .dog n
  | .cat n => .cat n

end Animal

/-- `DogFactory::createAnimal(name)` builds a `Dog` with the given name
(src/main.cpp lines 84-89). -/
def DogFactory.createAnimal (name : String) : Animal := .dog name

/-- `CatFactory::createAnimal(name)` builds a `Cat` with the given name
(src/main.cpp lines 91-96). -/
def CatFactory.createAnimal (name : String) : Animal := .cat name

/-- `AnimalFactory::createAnimal(type, name)` (src/main.cpp lines 180-188):
`"Dog"` gives a `Dog`, `"Cat"` gives a `Cat`, anything else throws
`std::invalid_argument("Unknown animal type")`, embedded as `Except.error`
carrying the exception message. -/
def AnimalFactory.createAnimal (type name : String) : Except String Animal :=
  if type == "Dog" then .ok (.dog name)
  else if type == "Cat" then .ok (.cat name)
  else .error "Unknown animal type"

namespace AnimalContainer

/-- `AnimalContainer::addAnimal` appends to the `std::vector` container
(src/main.cpp lines 107-109). -/
def addAnimal (container : List Animal) (animal : Animal) : List Animal :=
  container ++ [animal]

/-- `AnimalContainer::removeAnimal(name)` (src/main.cpp lines 117-121):
`std::erase_if` drops every element whose `getType()` equals the argument,
keeping the rest in order, so the remaining container is the filter by
the negated predicate. -/
def removeAnimal (container : List Animal) (name : String) : List Animal :=
  container.filter (fun animal => !(animal.getType == name))

/-- `AnimalContainer::displayAnimalInfo(name)` (src/main.cpp lines 123-129)
emits one info line per animal whose `getType()` equals the argument, in
container order; embedded as the list of animals whose info is printed. -/
def displayAnimalInfo (container : List Animal) (name : String) : List Animal :=
  container.filter (fun animal => animal.getType == name)

/-- The comparator passed to `std::ranges::sort` in
`AnimalContainer::sortAnimals` (src/main.cpp lines 132-134):
`a->getType() < b->getType()`. -/
def sortComp (a b : Animal) : Prop := a.getType < b.getType

instance : DecidableRel sortComp := fun a b => by
  unfold sortComp
  exact decidable_of_iff (a.getType.toList < b.getType.toList)
    String.lt_iff_toList_lt.symm

/-- Postcondition of `AnimalContainer::sortAnimals` (src/main.cpp lines
131-135).  `std::ranges::sort` guarantees exactly that the container
afterwards is a permutation of its previous contents that is sorted with
respect to the comparator (no pair of positions `i < j` has
`comp(v[j], v[i])`); it does NOT promise stability, so the embedding is
the relation between the container before and any permitted container
after. -/
def SortAnimalsPost (input output : List Animal) : Prop :=
  output.Perm input ∧ output.Pairwise (fun a b => ¬ sortComp b a)

instance (input output : List Animal) : Decidable (SortAnimalsPost input output) :=
  inferInstanceAs (Decidable (_ ∧ _))

end AnimalContainer

/-- Construction/destruction events of `AnimalContainer` objects: the
constructor increments the static `instanceCount`, the destructor
decrements it (src/main.cpp lines 103-105 and 141-143). -/
inductive RegistryEvent : Type where
  | construct
  | destroy
deriving DecidableEq, Repr

/-- The static counter `AnimalContainer::instanceCount` after a sequence of
constructor/destructor runs: starts at 0 (src/main.cpp line 146), `++` on
each construction, `--` on each destruction. -/
def instanceCount (events : List RegistryEvent) : Int :=
  events.foldl
    (fun c e => match e with
      | .construct => c + 1
      | .destroy => c - 1)
    0

/-- `AnimalNotifier::addObserver` appends to the `std::list` of observers
with no de-duplication (src/main.cpp lines 158-160).  Observers are
identified abstractly by their pointer value, embedded as a natural
number. -/
def AnimalNotifier.addObserver (observers : List Nat) (observer : Nat) : List Nat :=
  observers ++ [observer]

/-- `AnimalNotifier::notify(animal)` (src/main.cpp lines 162-166) loops over
the observer list in order, calling `observer->update(animal)` on each;
embedded as the sequence of `update` invocations (observer, argument) the
loop performs before returning. -/
def AnimalNotifier.notify (observers : List Nat) (animal : Animal) :
    List (Nat × Animal) :=
  match observers with
  | [] => []
  | o :: rest => (o, animal) :: AnimalNotifier.notify rest animal

/-- The add-animal branch of `main` (src/main.cpp lines 228-234): builds the
animal via `AnimalFactory::createAnimal`; on success it is appended to the
container and the notifier fires; the `std::invalid_argument` thrown for an
unknown tag is caught, only a message is printed, and the container is left
as it was (no `update` calls happen).  Returns the container and the
`update` invocations performed. -/
def mainAddAnimal (container : List Animal) (observers : List Nat)
    (type name : String) : List Animal × List (Nat × Animal) :=
  match AnimalFactory.createAnimal type name with
  | .ok animal =>
      (AnimalContainer.addAnimal container animal,
       AnimalNotifier.notify observers animal)
  | .error _ => (container, [])

/-- The catalog error taxonomy of the specification (section 7):
`UnknownItemType` for an unrecognized tag, `ParseError` for a malformed
magazine issue number. -/
inductive CatalogError : Type where
  | unknownItemType
  | parseError
deriving DecidableEq, Repr

/-- The `Item` hierarchy of the library-catalog demo, from the
specification (section 3): variants `Book{title, author}` and
`Magazine{title, issueNumber}` with an integer issue number. -/
inductive Item : Type where
  | book (title author : String)
  | magazine (title : String) (issueNumber : Int)
deriving DecidableEq, Repr

/-- Modelled from the spec: the decimal-digit accumulator of the
issue-number parse (the catalog demo is absent from `src/`): consumes the
characters left to right, failing on the first non-digit; an empty digit
sequence is malformed. -/
def ItemFactory.parseDigits (cs : List Char) : Option Nat :=
  cs.foldl
    (fun acc c =>
      match acc with
      | none => none
      | some n => if c.isDigit then some (n * 10 + (c.toNat - 48)) else none)
    (if cs.isEmpty then none else some 0)

/-- Modelled from the spec: the integer parse of the magazine issue-number
field ("the second field must parse as an integer issue number",
specification section 4.1; the catalog demo is absent from `src/`): an
optional leading minus sign followed by one or more decimal digits;
anything else is malformed. -/
def ItemFactory.parseIssueNumber (s : String) : Option Int :=
  match s.toList with
  | [] => none
  | c :: rest =>
      if c = '-' then (ItemFactory.parseDigits rest).map (fun n => -(n : Int))
      else (ItemFactory.parseDigits (c :: rest)).map (fun n => (n : Int))

/-- Modelled from the spec: the catalog Item Factory.  The library-catalog
demo is not present under `src/`; specification section 4.1 says the
factory, "given a type tag ∈ {book, magazine} and two string fields,
constructs the corresponding Item variant", fails with `UnknownItemType`
when the tag matches neither variant, and for `"magazine"` "the second
field must parse as an integer issue number; a malformed field fails with a
`ParseError`". -/
def ItemFactory.createItem (tag field1 field2 : String) : Except CatalogError Item :=
  if tag == "book" then .ok (.book field1 field2)
  else if tag == "magazine" then
    match ItemFactory.parseIssueNumber field2 with
    | some n => .ok (.magazine field1 n)
    | none => .error .parseError
  else .error .unknownItemType

/-! ## General lemmas about the embedding -/

/-- `getType` only ever returns one of the two variant tags. -/
theorem Animal.getType_mem (a : Animal) : a.getType = "Dog" ∨ a.getType = "Cat" := by
  cases a <;> simp [Animal.getType]

/-- `notify` performs exactly the `update` calls `(o, animal)` for the
observers `o` in list order. -/
theorem AnimalNotifier.notify_eq_map (observers : List Nat) (animal : Animal) :
    AnimalNotifier.notify observers animal =
      observers.map (fun o => (o, animal)) := by
  induction observers with
  | nil => rfl
  | cons o rest ih => simp [AnimalNotifier.notify, ih]

/-- The instance counter started from `c` equals `c` plus constructions
minus destructions. -/
theorem instanceCount_foldl (events : List RegistryEvent) (c : Int) :
    events.foldl
      (fun c e => match e with
        | RegistryEvent.construct => c + 1
        | RegistryEvent.destroy => c - 1)
      c
      = c + events.count RegistryEvent.construct - events.count RegistryEvent.destroy := by
  induction events generalizing c with
  | nil => simp
  | cons e rest ih =>
    cases e <;> simp [List.count_cons, ih] <;> ring

/-! ## Claims -/

/-- C1: `removeByType(t)` removes exactly the animals whose variant tag
equals `t` (each animal value survives with its original multiplicity when
its tag differs from `t` and is gone entirely when it matches), leaves the
survivors in their original relative order (the result is a sublist of the
original sequence), and is a no-op, not an error, when no animal's tag
equals `t`. -/
theorem removeAnimal_spec (container : List Animal) (t : String) :
    (AnimalContainer.removeAnimal container t).Sublist container ∧
    (∀ a : Animal, (AnimalContainer.removeAnimal container t).count a =
      if a.getType = t then 0 else container.count a) ∧
    ((∀ a ∈ container, a.getType ≠ t) →
      AnimalContainer.removeAnimal container t = container) := by
  refine ⟨List.filter_sublist _, ?_, ?_⟩
  · intro a
    by_cases h : a.getType = t
    · simp only [if_pos h, List.count_eq_zero]
      intro hmem
      have hpred := (List.mem_filter.mp hmem).2
      simp [h] at hpred
    · simp [AnimalContainer.removeAnimal, List.count_filter, h]
  · intro hnone
    simp only [AnimalContainer.removeAnimal]
    refine List.filter_eq_self.mpr ?_
    intro a ha
    simpa using hnone a ha

/-- C3: for each supported tag (`"Dog"` or `"Cat"`) and any name, the static
factory succeeds and the resulting animal's `getType()` equals the requested
tag. -/
theorem createAnimal_supported (t n : String) (h : t = "Dog" ∨ t = "Cat") :
    ∃ a : Animal, AnimalFactory.createAnimal t n = .ok a ∧ a.getType = t := by
  rcases h with rfl | rfl
  · exact ⟨.dog n, rfl, rfl⟩
  · exact ⟨.cat n, rfl, rfl⟩

/-- Witness for C3 at tag `"Dog"`, name `"Rex"`. -/
theorem createAnimal_supported_witness :
    ("Dog" = "Dog" ∨ "Dog" = "Cat") ∧
    ∃ a : Animal, AnimalFactory.createAnimal "Dog" "Rex" = .ok a ∧ a.getType = "Dog" :=
  ⟨Or.inl rfl, createAnimal_supported "Dog" "Rex" (Or.inl rfl)⟩

/-- C4: for a tag that is neither `"Dog"` nor `"Cat"`, the static factory
fails with the `"Unknown animal type"` error, and the add-animal branch of
`main` leaves the container unmodified (and performs no observer updates). -/
theorem createAnimal_unknown (container : List Animal) (observers : List Nat)
    (t n : String) (hd : t ≠ "Dog") (hc : t ≠ "Cat") :
    AnimalFactory.createAnimal t n = .error "Unknown animal type" ∧
    mainAddAnimal container observers t n = (container, []) := by
  have hfac : AnimalFactory.createAnimal t n = .error "Unknown animal type" := by
    simp [AnimalFactory.createAnimal, hd, hc]
  exact ⟨hfac, by simp [mainAddAnimal, hfac]⟩

/-- Witness for C4 at tag `"Fish"`, name `"Nemo"`, container `[Dog Rex]`. -/
theorem createAnimal_unknown_witness :
    ("Fish" ≠ "Dog") ∧ ("Fish" ≠ "Cat") ∧
    (AnimalFactory.createAnimal "Fish" "Nemo" = .error "Unknown animal type" ∧
     mainAddAnimal [Animal.dog "Rex"] [0] "Fish" "Nemo" = ([Animal.dog "Rex"], [])) :=
  ⟨by decide, by decide,
    createAnimal_unknown [Animal.dog "Rex"] [0] "Fish" "Nemo"
      (by decide) (by decide)⟩

/-- C8: the two construction paths agree: `DogFactory.createAnimal(n)` is
the same animal (variant and name) that `AnimalFactory.createAnimal("Dog", n)`
succeeds with, likewise `CatFactory` with tag `"Cat"`, and each abstract
factory produces exactly its one fixed variant. -/
theorem abstract_factory_equiv (n : String) :
    AnimalFactory.createAnimal "Dog" n = .ok (DogFactory.createAnimal n) ∧
    AnimalFactory.createAnimal "Cat" n = .ok (CatFactory.createAnimal n) ∧
    (DogFactory.createAnimal n).getType = "Dog" ∧
    (CatFactory.createAnimal n).getType = "Cat" :=
  ⟨rfl, rfl, rfl, rfl⟩

/-- C10: `removeAnimal` compares its argument only against each animal's
variant tag, never its name: for any string that is neither `"Dog"` nor
`"Cat"` (in particular any animal name the CLI prompt asks for), the
container is left completely unchanged. -/
theorem removeAnimal_nontag_noop (container : List Animal) (s : String)
    (hd : s ≠ "Dog") (hc : s ≠ "Cat") :
    AnimalContainer.removeAnimal container s = container := by
  refine List.filter_eq_self.mpr ?_
  intro a _
  rcases Animal.getType_mem a with h | h <;> simp [h, Ne.symm hd, Ne.symm hc]

/-- Witness for C10: removing by the name `"Rex"` of a stored dog leaves the
container unchanged. -/
theorem removeAnimal_nontag_noop_witness :
    ("Rex" ≠ "Dog") ∧ ("Rex" ≠ "Cat") ∧
    AnimalContainer.removeAnimal [Animal.dog "Rex", Animal.cat "Tom"] "Rex" =
      [Animal.dog "Rex", Animal.cat "Tom"] :=
  ⟨by decide, by decide,
    removeAnimal_nontag_noop [Animal.dog "Rex", Animal.cat "Tom"] "Rex"
      (by decide) (by decide)⟩

/-- C2 counterexample: `std::ranges::sort` is not a stable sort.  On the
container `[Dog Rex, Dog Fido]` the output `[Dog Fido, Dog Rex]` satisfies
the sort's postcondition (sorted permutation), yet the equal-tag animals do
not keep their original relative order, so the claim that `sortByType()`
stably sorts fails on the code. -/
theorem sortAnimals_not_stable :
    AnimalContainer.SortAnimalsPost
      [Animal.dog "Rex", Animal.dog "Fido"] [Animal.dog "Fido", Animal.dog "Rex"] ∧
    ¬ (List.filter (fun a => a.getType == "Dog")
          [Animal.dog "Fido", Animal.dog "Rex"] =
        List.filter (fun a => a.getType == "Dog")
          [Animal.dog "Rex", Animal.dog "Fido"]) := by
  decide

/-- C2 amended: any container state `sortAnimals` may leave behind is a
permutation of the input sorted by variant tag ascending (equal-tag
relative order is NOT guaranteed, since `std::ranges::sort` is unstable);
in particular, after adding Dog "Rex", Cat "Tom", Dog "Fido" in that order
and sorting, the container is `[Cat Tom, Dog Rex, Dog Fido]` or
`[Cat Tom, Dog Fido, Dog Rex]`. -/
theorem sortAnimals_sorts_by_tag (input output : List Animal)
    (h : AnimalContainer.SortAnimalsPost input output) :
    (output.Perm input ∧
      output.Pairwise (fun a b => a.getType ≤ b.getType)) ∧
    (input = AnimalContainer.addAnimal
        (AnimalContainer.addAnimal
          (AnimalContainer.addAnimal [] (Animal.dog "Rex")) (Animal.cat "Tom"))
        (Animal.dog "Fido") →
      output = [Animal.cat "Tom", Animal.dog "Rex", Animal.dog "Fido"] ∨
      output = [Animal.cat "Tom", Animal.dog "Fido", Animal.dog "Rex"]) := by
  obtain ⟨hperm, hsort⟩ := h
  refine ⟨⟨hperm, hsort.imp (fun hab => not_lt.mp hab)⟩, ?_⟩
  intro hin
  simp only [AnimalContainer.addAnimal, List.nil_append, List.cons_append,
    List.nil_append] at hin
  subst hin
  have hlen : output.length = 3 := hperm.length_eq
  rcases output with _ | ⟨a, _ | ⟨b, _ | ⟨c, _ | ⟨d, tl⟩⟩⟩⟩ <;>
    simp only [List.length_nil, List.length_cons] at hlen <;> try omega
  have ha : a ∈ [Animal.dog "Rex", Animal.cat "Tom", Animal.dog "Fido"] :=
    hperm.subset (by simp)
  have hb : b ∈ [Animal.dog "Rex", Animal.cat "Tom", Animal.dog "Fido"] :=
    hperm.subset (by simp)
  have hc : c ∈ [Animal.dog "Rex", Animal.cat "Tom", Animal.dog "Fido"] :=
    hperm.subset (by simp)
  fin_cases ha <;> fin_cases hb <;> fin_cases hc <;>
    first
      | (left; rfl)
      | (right; rfl)
      | (exact absurd hperm (by decide))
      | (exact absurd hsort (by decide))

/-- C2 witness: the scenario input with the stable-order output satisfies
the sort postcondition, and the amended conclusion holds there. -/
theorem sortAnimals_sorts_by_tag_witness :
    AnimalContainer.SortAnimalsPost
      [Animal.dog "Rex", Animal.cat "Tom", Animal.dog "Fido"]
      [Animal.cat "Tom", Animal.dog "Rex", Animal.dog "Fido"] ∧
    ((([Animal.cat "Tom", Animal.dog "Rex", Animal.dog "Fido"] : List Animal).Perm
        [Animal.dog "Rex", Animal.cat "Tom", Animal.dog "Fido"] ∧
      ([Animal.cat "Tom", Animal.dog "Rex", Animal.dog "Fido"] : List Animal).Pairwise
        (fun a b => a.getType ≤ b.getType)) ∧
     ([Animal.dog "Rex", Animal.cat "Tom", Animal.dog "Fido"] =
        AnimalContainer.addAnimal
          (AnimalContainer.addAnimal
            (AnimalContainer.addAnimal [] (Animal.dog "Rex")) (Animal.cat "Tom"))
          (Animal.dog "Fido") →
      [Animal.cat "Tom", Animal.dog "Rex", Animal.dog "Fido"] =
          [Animal.cat "Tom", Animal.dog "Rex", Animal.dog "Fido"] ∨
      [Animal.cat "Tom", Animal.dog "Rex", Animal.dog "Fido"] =
          [Animal.cat "Tom", Animal.dog "Fido", Animal.dog "Rex"])) :=
  ⟨by decide, sortAnimals_sorts_by_tag _ _ (by decide)⟩

/-- C7 counterexample: sorting is not idempotent in the strict sense the
claim states.  `[Dog Ann, Dog Ben]` is already sorted by tag, yet
`[Dog Ben, Dog Ann]` also satisfies the (unstable) sort's postcondition on
it and is a different sequence. -/
theorem sortAnimals_not_idempotent :
    ([Animal.dog "Ann", Animal.dog "Ben"] : List Animal).Pairwise
      (fun a b => ¬ AnimalContainer.sortComp b a) ∧
    AnimalContainer.SortAnimalsPost
      [Animal.dog "Ann", Animal.dog "Ben"] [Animal.dog "Ben", Animal.dog "Ann"] ∧
    [Animal.dog "Ben", Animal.dog "Ann"] ≠ [Animal.dog "Ann", Animal.dog "Ben"] := by
  decide

/-- C7 amended: sorting an already-sorted container yields a container with
the same animals (as a multiset) and the identical sequence of variant
tags; only the relative order of equal-tag animals may change (and the tag
sequence itself is unchanged, being already ascending). -/
theorem sortAnimals_idem_on_tags (input output : List Animal)
    (hsorted : input.Pairwise (fun a b => ¬ AnimalContainer.sortComp b a))
    (h : AnimalContainer.SortAnimalsPost input output) :
    output.Perm input ∧
    output.map Animal.getType = input.map Animal.getType := by
  obtain ⟨hperm, hsort⟩ := h
  refine ⟨hperm, ?_⟩
  have hs₁ : (output.map Animal.getType).Sorted (· ≤ ·) :=
    List.pairwise_map.mpr (hsort.imp (fun hab => not_lt.mp hab))
  have hs₂ : (input.map Animal.getType).Sorted (· ≤ ·) :=
    List.pairwise_map.mpr (hsorted.imp (fun hab => not_lt.mp hab))
  exact List.eq_of_perm_of_sorted (hperm.map Animal.getType) hs₁ hs₂

/-- C7 witness: a sorted two-animal container together with a permitted
output of re-sorting it. -/
theorem sortAnimals_idem_on_tags_witness :
    ([Animal.cat "Tom", Animal.dog "Rex"] : List Animal).Pairwise
      (fun a b => ¬ AnimalContainer.sortComp b a) ∧
    AnimalContainer.SortAnimalsPost
      [Animal.cat "Tom", Animal.dog "Rex"] [Animal.cat "Tom", Animal.dog "Rex"] ∧
    (([Animal.cat "Tom", Animal.dog "Rex"] : List Animal).Perm
        [Animal.cat "Tom", Animal.dog "Rex"] ∧
      ([Animal.cat "Tom", Animal.dog "Rex"] : List Animal).map Animal.getType =
        ([Animal.cat "Tom", Animal.dog "Rex"] : List Animal).map Animal.getType) :=
  ⟨by decide, by decide,
    sortAnimals_idem_on_tags _ _ (by decide) (by decide)⟩

/-- C5: `addObserver` appends to the observer list without de-duplication,
and `notify(a)` performs exactly one `update(a)` invocation per stored
observer entry, in registration order, as the sequence of calls made before
it returns; an observer registered k times therefore receives k invocations
per notify. -/
theorem notifier_spec (observers : List Nat) (o : Nat) (a : Animal) :
    AnimalNotifier.addObserver observers o = observers ++ [o] ∧
    AnimalNotifier.notify observers a = observers.map (fun x => (x, a)) ∧
    (∀ x : Nat,
      (AnimalNotifier.notify observers a).countP (fun e => e.1 == x) =
        observers.count x) := by
  refine ⟨rfl, AnimalNotifier.notify_eq_map observers a, ?_⟩
  intro x
  rw [AnimalNotifier.notify_eq_map, List.countP_map]
  rfl

/-- C6: the static instance counter equals constructions minus
destructions: after any event sequence containing N constructor runs and M
destructor runs with M ≤ N, `instanceCount` is N − M, the number of
currently-live `AnimalContainer` objects. -/
theorem instanceCount_live (events : List RegistryEvent) (N M : Nat)
    (hN : events.count RegistryEvent.construct = N)
    (hM : events.count RegistryEvent.destroy = M) (hMN : M ≤ N) :
    instanceCount events = (N : Int) - (M : Int) ∧
    instanceCount events = ((N - M : Nat) : Int) := by
  have h1 : instanceCount events = (N : Int) - (M : Int) := by
    simpa [instanceCount, hN, hM] using instanceCount_foldl events 0
  exact ⟨h1, by rw [h1]; omega⟩

/-- C6 witness: two constructions and one destruction leave the counter at
1 = 2 − 1. -/
theorem instanceCount_live_witness :
    ([RegistryEvent.construct, RegistryEvent.construct,
        RegistryEvent.destroy].count RegistryEvent.construct = 2) ∧
    ([RegistryEvent.construct, RegistryEvent.construct,
        RegistryEvent.destroy].count RegistryEvent.destroy = 1) ∧
    1 ≤ 2 ∧
    (instanceCount [RegistryEvent.construct, RegistryEvent.construct,
        RegistryEvent.destroy] = (2 : Int) - (1 : Int) ∧
     instanceCount [RegistryEvent.construct, RegistryEvent.construct,
        RegistryEvent.destroy] = ((2 - 1 : Nat) : Int)) :=
  ⟨by decide, by decide, by decide,
    instanceCount_live _ 2 1 (by decide) (by decide) (by decide)⟩

/-- C9 counterexample: the item factory is not total on tag `"magazine"`:
with second field `"abc"` (not an integer) it fails with `ParseError`
instead of constructing a Magazine, so "given a type tag in
{book, magazine} and two string fields, constructs the corresponding Item
variant" fails as stated. -/
theorem createItem_magazine_parse_failure :
    ItemFactory.createItem "magazine" "Time" "abc" =
      .error CatalogError.parseError ∧
    ¬ ∃ item : Item,
        ItemFactory.createItem "magazine" "Time" "abc" = .ok item := by
  refine ⟨rfl, ?_⟩
  rintro ⟨item, hitem⟩
  rw [show ItemFactory.createItem "magazine" "Time" "abc" =
      .error CatalogError.parseError from rfl] at hitem
  cases hitem

/-- C9 amended: the item factory builds `Book{f1, f2}` for tag `"book"`,
builds `Magazine{f1, n}` for tag `"magazine"` when the second field parses
as the integer `n` and fails with `ParseError` when it does not, and fails
with `UnknownItemType` for any other tag. -/
theorem createItem_contract (tag f1 f2 : String) :
    (tag = "book" →
      ItemFactory.createItem tag f1 f2 = .ok (.book f1 f2)) ∧
    (tag = "magazine" → ∀ n : Int, ItemFactory.parseIssueNumber f2 = some n →
      ItemFactory.createItem tag f1 f2 = .ok (.magazine f1 n)) ∧
    (tag = "magazine" → ItemFactory.parseIssueNumber f2 = none →
      ItemFactory.createItem tag f1 f2 = .error CatalogError.parseError) ∧
    (tag ≠ "book" → tag ≠ "magazine" →
      ItemFactory.createItem tag f1 f2 = .error CatalogError.unknownItemType) := by
  refine ⟨?_, ?_, ?_, ?_⟩
  · rintro rfl
    simp [ItemFactory.createItem]
  · rintro rfl n hn
    simp [ItemFactory.createItem, hn]
  · rintro rfl hn
    simp [ItemFactory.createItem, hn]
  · intro hb hm
    simp [ItemFactory.createItem, hb, hm]
